import Mathlib

/-!
Shallow embedding of the `morning_routine` Home Assistant custom integration
(`custom_components/morning_routine`): the constants of `const.py`, the state
transition methods of `MorningRoutineCoordinator` in `__init__.py`, the service
registration table of `async_setup_entry`, and the child progress sensor of
`sensor.py`.

External interactions (YouTube playlist fetch, OpenAI image generation and
conversation calls, calendar queries) are modelled by an `Env` record holding
their oracle results, and side effects (event bus firings, storage saves,
persistent notifications, reward generation and completion announcements) are
returned as an explicit trace of `Eff` values.  Timestamps are passed in as
opaque strings (the code only ever stores `dt_util.utcnow().isoformat()`).
-/

namespace MorningRoutine

/-- The two known children (`CHILDREN` in `const.py`). -/
def CHILDREN : List String := ["duarte", "leonor"]

/-- Static description of an activity: the entries of `FIXED_ACTIVITIES` and
the `activity` dictionaries inside `CALENDAR_ACTIVITY_MAPPING` (`const.py`). -/
structure ActivityConfig where
  id : String
  name : String
  icon : String
  camera_required : Bool := false
  nfc_required : Bool := false
deriving DecidableEq, Repr

/-- The five fixed activities (`FIXED_ACTIVITIES` in `const.py`). -/
def FIXED_ACTIVITIES : List ActivityConfig :=
  [ { id := "dressed", name := "Vestir", icon := "mdi:tshirt-crew",
      camera_required := true, nfc_required := false },
    { id := "breakfast", name := "Pequeno-Almoço", icon := "mdi:food-variant" },
    { id := "teeth", name := "Lavar Dentes e Cara", icon := "mdi:toothbrush" },
    { id := "schoolbag", name := "Mochila", icon := "mdi:bag-personal",
      nfc_required := true },
    { id := "lunchbox", name := "Lancheira", icon := "mdi:bag-checked",
      nfc_required := true } ]

/-- One pattern entry of `CALENDAR_ACTIVITY_MAPPING` (`const.py`). -/
structure CalendarMapping where
  pattern : String
  activity : ActivityConfig
deriving DecidableEq, Repr

/-- `CALENDAR_ACTIVITY_MAPPING` from `const.py`: per-child wildcard patterns
matched against calendar event summaries. -/
def CALENDAR_ACTIVITY_MAPPING : List (String × List CalendarMapping) :=
  [ ("duarte",
      [ { pattern := "D-Música*",
          activity := { id := "music", name := "Música", icon := "mdi:music",
                        nfc_required := true } },
        { pattern := "D-Natação",
          activity := { id := "swimming", name := "Natação", icon := "mdi:swim",
                        nfc_required := true } },
        { pattern := "D-Jiu Jitsu",
          activity := { id := "jiujitsu", name := "Jiu Jitsu", icon := "mdi:karate",
                        nfc_required := true } } ]),
    ("leonor",
      [ { pattern := "L-Música*",
          activity := { id := "music", name := "Música", icon := "mdi:music",
                        nfc_required := true } },
        { pattern := "L-Taekwondo",
          activity := { id := "taekwondo", name := "Taekwondo", icon := "mdi:karate",
                        nfc_required := true } },
        { pattern := "L-Ed Física",
          activity := { id := "physical_education", name := "Ed Física", icon := "mdi:run",
                        nfc_required := true } } ]) ]

/-- `ACTIVITY_TYPES` from `const.py`: fixed activities keyed by id, extended
with every calendar activity id not already present. -/
def ACTIVITY_TYPES : List (String × ActivityConfig) :=
  CALENDAR_ACTIVITY_MAPPING.foldl
    (fun acc p =>
      p.2.foldl
        (fun acc m =>
          if acc.any (fun q => q.1 == m.activity.id) then acc
          else acc ++ [(m.activity.id, m.activity)])
        acc)
    (FIXED_ACTIVITIES.map (fun a => (a.id, a)))

/-- The keys of `ACTIVITY_TYPES` (what `activity in ACTIVITY_TYPES` tests). -/
def activityTypeIds : List String := ACTIVITY_TYPES.map (fun p => p.1)

/-- Event type constants from `const.py`. -/
def EVENT_ACTIVITY_COMPLETED : String := "morning_routine_activity_completed"

def EVENT_ROUTINE_COMPLETE : String := "morning_routine_routine_complete"

def EVENT_RESET : String := "morning_routine_reset"

/-- One runtime activity dictionary as stored in `self.data[child]["activities"]`.
Optional dictionary keys (`device_id`, `last_modified`, `event_summary`) are
`Option` fields that are `none` when the key is absent. -/
structure Activity where
  id : String
  name : String
  icon : String
  completed : Bool
  completed_at : Option String
  camera_required : Bool
  nfc_required : Bool
  source : String
  device_id : Option String := none
  last_modified : Option String := none
  event_summary : Option String := none
deriving DecidableEq, Repr

/-- Per-child state dictionary `self.data[child]` (`_load_data`). -/
structure ChildData where
  activities : List Activity
  last_activity_time : Option String := none
  photo_path : Option String := none
  audio_recording : Option String := none
  reward_image : Option String := none
  reward_video_id : Option String := none
  daily_phrase : Option String := none
  last_reset : Option String := none
  last_calendar_sync : Option String := none
deriving DecidableEq, Repr

/-- Coordinator state dictionary `self.data`.  `_load_data` guarantees one
entry per child of `CHILDREN`, so the dictionary is represented with one field
per child; string lookup goes through `Data.get`. -/
structure Data where
  duarte : ChildData
  leonor : ChildData
deriving DecidableEq, Repr

/-- Dictionary lookup `self.data.get(child)`; `none` exactly when the child is
not one of `CHILDREN`. -/
def Data.get (d : Data) (c : String) : Option ChildData :=
  if c = "duarte" then some d.duarte
  else if c = "leonor" then some d.leonor
  else none

/-- Dictionary update `self.data[child] = cd` for a known child (no-op on an
unknown key, which the code never performs). -/
def Data.set (d : Data) (c : String) (cd : ChildData) : Data :=
  if c = "duarte" then { d with duarte := cd }
  else if c = "leonor" then { d with leonor := cd }
  else d

/-- `_get_default_activities`: the five fixed activities, not completed. -/
def get_default_activities : List Activity :=
  FIXED_ACTIVITIES.map (fun a =>
    { id := a.id, name := a.name, icon := a.icon, completed := false,
      completed_at := none, camera_required := a.camera_required,
      nfc_required := a.nfc_required, source := "default" })

/-- The fresh per-child state created by `_load_data` when storage is empty. -/
def initialChildData : ChildData := { activities := get_default_activities }

/-- The fresh coordinator state created by `_load_data` when storage is empty. -/
def initialData : Data := { duarte := initialChildData, leonor := initialChildData }

/-- Observable side effects of the coordinator methods, in program order:
event-bus firings (`hass.bus.async_fire`), storage saves (`_save_data`),
persistent notifications, calls into `generate_reward` / `_announce_completion`,
and coordinator refreshes (`async_set_updated_data`). -/
inductive Eff where
  | activityCompletedEvent (child activity : String) (completed : Bool)
      (progress : Nat) (timestamp : String)
  | routineCompleteEvent (child rewardType : String)
      (rewardVideoId rewardImage : Option String)
  | resetEvent (children : List String) (resetTime : String)
  | saveData
  | generateRewardCall (child : String)
  | announceCompletion (child : String)
  | notify (notificationId : String)
  | setUpdatedData
deriving DecidableEq, Repr

/-- The event-bus type fired by an effect, when it is a bus firing. -/
def Eff.firedEventType : Eff → Option String
  | .activityCompletedEvent _ _ _ _ _ => some EVENT_ACTIVITY_COMPLETED
  | .routineCompleteEvent _ _ _ _ => some EVENT_ROUTINE_COMPLETE
  | .resetEvent _ _ => some EVENT_RESET
  | _ => none

/-- Event bus types the integration subscribes to (`_setup_listeners` calls
`hass.bus.async_listen` only for `tag_scanned`). -/
def listenedBusEvents : List String := ["tag_scanned"]

/-- All suffixes of a character list, longest first, the empty one included. -/
def allSuffixes : List Char → List (List Char)
  | [] => [[]]
  | c :: t => (c :: t) :: allSuffixes t

/-- Glob matching over character lists: the semantics of Python's
`fnmatch.fnmatch` on POSIX (where `os.path.normcase` is the identity) for
patterns made of literal characters and the `*` and `?` wildcards, which
covers every pattern in `CALENDAR_ACTIVITY_MAPPING`.  A `*` matches when the
rest of the pattern matches some suffix of the rest of the name (recursion is
structural on the pattern so that the kernel can evaluate matches). -/
def globMatch : List Char → List Char → Bool
  | [], s => s.isEmpty
  | '*' :: ps, s => (allSuffixes s).any (fun t => globMatch ps t)
  | '?' :: ps, s =>
    match s with
    | [] => false
    | _ :: t => globMatch ps t
  | c :: ps, s =>
    match s with
    | [] => false
    | c2 :: t => c == c2 && globMatch ps t

/-- `fnmatch.fnmatch(name, pattern)`. -/
def fnmatch (name pat : String) : Bool := globMatch pat.data name.data

/-- Outcome of the OpenAI `generate_image` service call plus the subsequent
image download inside the `try` block of `generate_reward`:
the call raises, the response carries no `url`, the download raises, or a
local image path is produced. -/
inductive AIOutcome where
  | callRaises
  | noUrl
  | downloadRaises
  | image (localPath : String)
deriving DecidableEq, Repr

/-- One calendar event as returned by `calendar.get_events`; the code only
reads `event.get("summary", "")`. -/
structure CalEvent where
  summary : String
deriving DecidableEq, Repr

/-- Configuration values and oracle results for all external interactions:
`reward_type`, the per-child YouTube fetch result (`none` models a failed
fetch or empty playlist), the OpenAI options and per-child image outcome,
the calendar events for today (`none` models no configured or found calendar
entity, or a failed query), and the per-child daily-phrase result. -/
structure Env where
  reward_type : String := "quote"
  youtube : String → Option String := fun _ => none
  openai_enabled : Bool := false
  openai_entry : Option String := none
  openai_first : Option String := none
  ai : String → AIOutcome := fun _ => .callRaises
  calendarEvents : Option (List CalEvent) := none
  dailyPhraseEnabled : Bool := false
  phrase : String → Option String := fun _ => none

/-- Resolution of the OpenAI config entry in `generate_reward`: the configured
entry if set, else the first available `openai_conversation` entry. -/
def resolveEntry (env : Env) : Option String :=
  match env.openai_entry with
  | some e => some e
  | none => env.openai_first

/-- `_is_child_complete` on an activity list: all activities completed. -/
def is_child_complete (acts : List Activity) : Bool :=
  acts.all (fun a => a.completed)

/-- `_calculate_progress` on an activity list: 0 for an empty list, otherwise
`int((completed / len(activities)) * 100)`.  For natural counts the Python
float expression truncates to the rational floor `completed * 100 / total`,
which natural division computes. -/
def calculate_progress (acts : List Activity) : Nat :=
  if acts.isEmpty then 0
  else (acts.countP (fun a => a.completed)) * 100 / acts.length

/-- The final `quote` fallback branch of `generate_reward`: fire the
completion event unless `save_only`, then refresh the coordinator. -/
def quoteBranch (d : Data) (child : String) (save_only : Bool) : Data × List Eff :=
  (d, (if save_only then [] else [Eff.routineCompleteEvent child "quote" none none])
        ++ [Eff.setUpdatedData])

/-- `generate_reward(child, save_only)`.  Mirrors the source's successive
reassignments of the local `reward_type` on failure: a failed YouTube fetch,
a disabled OpenAI integration, a missing OpenAI config entry, a raising
OpenAI call, a response without image URL, or a raising download all fall
back to the `quote` branch.  A `reward_type` that is none of the three known
values does nothing. -/
def generate_reward (d : Data) (env : Env) (child : String) (save_only : Bool) :
    Data × List Eff :=
  match d.get child with
  | none => (d, [])
  | some cd =>
    if env.reward_type = "youtube_video" then
      match env.youtube child with
      | some vid =>
        (d.set child { cd with reward_video_id := some vid },
         [Eff.saveData] ++
           (if save_only then []
            else [Eff.routineCompleteEvent child "youtube_video" (some vid) none,
                  Eff.setUpdatedData]))
      | none => quoteBranch d child save_only
    else if env.reward_type = "ai_image" then
      if env.openai_enabled then
        match resolveEntry env with
        | none => quoteBranch d child save_only
        | some _ =>
          match env.ai child with
          | .image p =>
            (d.set child { cd with reward_image := some p },
             [Eff.saveData] ++
               (if save_only then []
                else [Eff.routineCompleteEvent child "ai_image" none (some p),
                      Eff.setUpdatedData]))
          | _ => quoteBranch d child save_only
      else quoteBranch d child save_only
    else if env.reward_type = "quote" then quoteBranch d child save_only
    else (d, [])

/-- The activity-update loop of `complete_activity`: update the first
activity whose id matches (the loop breaks after the first hit), returning
the new list and whether a matching activity was found.  When marking
complete, `device_id` is stored only when truthy; when marking incomplete,
`completed_at` is cleared and `device_id` deleted. -/
def markActivity (acts : List Activity) (activity_id : String)
    (device_id : Option String) (completed : Bool) (now : String) :
    List Activity × Bool :=
  match acts with
  | [] => ([], false)
  | a :: rest =>
    if a.id = activity_id then
      (( if completed then
           { a with completed := true, last_modified := some now,
                    completed_at := some now,
                    device_id :=
                      match device_id with
                      | some dev => if dev = "" then a.device_id else some dev
                      | none => a.device_id }
         else
           { a with completed := false, last_modified := some now,
                    completed_at := none, device_id := none }) :: rest, true)
    else
      let r := markActivity rest activity_id device_id completed now
      (a :: r.1, r.2)

/-- `complete_activity(child, activity_id, device_id, completed)`.  Returns the
updated coordinator data and the effect trace: nothing for an unknown child or
a missing activity id; otherwise a save, the `*_activity_completed` event, the
reward generation and completion announcement when the marking completes the
child's last pending activity, and the final coordinator refresh. -/
def complete_activity (d : Data) (env : Env) (child activity_id : String)
    (device_id : Option String) (completed : Bool) (now : String) :
    Data × List Eff :=
  match d.get child with
  | none => (d, [])
  | some cd =>
    let r := markActivity cd.activities activity_id device_id completed now
    if r.2 then
      let cd' := { cd with activities := r.1, last_activity_time := some now }
      let d' := d.set child cd'
      let base := [Eff.saveData,
        Eff.activityCompletedEvent child activity_id completed
          (calculate_progress r.1) now]
      if completed && is_child_complete r.1 then
        let gr := generate_reward d' env child false
        (gr.1, base ++ [Eff.generateRewardCall child] ++ gr.2 ++
          [Eff.announceCompletion child, Eff.setUpdatedData])
      else
        (d', base ++ [Eff.setUpdatedData])
    else (d, [])

/-- The lookup `CALENDAR_ACTIVITY_MAPPING[child]` guarded by
`child not in CALENDAR_ACTIVITY_MAPPING`. -/
def lookupChildMappings (child : String) : Option (List CalendarMapping) :=
  (CALENDAR_ACTIVITY_MAPPING.find? (fun p => p.1 == child)).map (fun p => p.2)

/-- The inner pattern loop of `_parse_calendar_events`: the first mapping
whose pattern matches the event summary (the loop breaks after a match). -/
def firstMatch (ms : List CalendarMapping) (summary : String) :
    Option CalendarMapping :=
  ms.find? (fun m => fnmatch summary m.pattern)

/-- The activity dictionary built by `_parse_calendar_events` for a matched
event.  `camera_required` is always false, `nfc_required` defaults to true
(every calendar activity config sets it). -/
def mkCalActivity (cfg : ActivityConfig) (summary now : String) : Activity :=
  { id := cfg.id, name := cfg.name, icon := cfg.icon, completed := false,
    completed_at := none, camera_required := false,
    nfc_required := cfg.nfc_required, source := "calendar",
    event_summary := some summary, last_modified := some now }

/-- One iteration of the outer event loop of `_parse_calendar_events`: find
the first matching pattern, then record its activity keyed by id unless that
id was already matched by an earlier event. -/
def parseStep (ms : List CalendarMapping) (now : String)
    (acc : List (String × Activity)) (e : CalEvent) : List (String × Activity) :=
  match firstMatch ms e.summary with
  | none => acc
  | some m =>
    if acc.any (fun p => p.1 == m.activity.id) then acc
    else acc ++ [(m.activity.id, mkCalActivity m.activity e.summary now)]

/-- `_parse_calendar_events(child, events)`: an empty list for a child absent
from `CALENDAR_ACTIVITY_MAPPING`, otherwise the values of the
`matched_activities` dictionary in insertion order. -/
def parse_calendar_events (child : String) (events : List CalEvent)
    (now : String) : List Activity :=
  match lookupChildMappings child with
  | none => []
  | some ms => (events.foldl (parseStep ms now) []).map (fun p => p.2)

/-- The per-activity append loop of `_sync_calendar`: add each parsed
calendar activity whose id is not already among the child's activity ids. -/
def appendCalendar (acts newActs : List Activity) : List Activity :=
  newActs.foldl
    (fun cur a => if cur.any (fun b => b.id == a.id) then cur else cur ++ [a])
    acts

/-- `_sync_calendar`: a no-op when no calendar entity is configured or found
or the query fails (`events = none`); otherwise append each child's parsed
calendar activities, stamp `last_calendar_sync` for every child, and save. -/
def sync_calendar (d : Data) (events : Option (List CalEvent)) (now : String) :
    Data × List Eff :=
  match events with
  | none => (d, [])
  | some evs =>
    let d1 := CHILDREN.foldl
      (fun dd c =>
        match dd.get c with
        | none => dd
        | some cd =>
          dd.set c { cd with
            activities := appendCalendar cd.activities
              (parse_calendar_events c evs now) }) d
    let d2 := CHILDREN.foldl
      (fun dd c =>
        match dd.get c with
        | none => dd
        | some cd => dd.set c { cd with last_calendar_sync := some now }) d1
    (d2, [Eff.saveData])

/-- `_generate_daily_phrases`: when enabled and an OpenAI config entry is
configured, store each child's generated phrase when one comes back
non-empty (`phrase c = none` models a raised call or empty response). -/
def generate_daily_phrases (d : Data) (env : Env) : Data :=
  if env.dailyPhraseEnabled then
    match env.openai_entry with
    | none => d
    | some _ =>
      CHILDREN.foldl
        (fun dd c =>
          match dd.get c with
          | none => dd
          | some cd =>
            match env.phrase c with
            | some p => dd.set c { cd with daily_phrase := some p }
            | none => dd) d
  else d

/-- `_generate_daily_content`: generate daily phrases, then pre-generate
rewards — `generate_reward(child, save_only=True)` per child for an enabled
AI image reward, or a per-child YouTube video pre-fetch — and save. -/
def generate_daily_content (d : Data) (env : Env) : Data × List Eff :=
  let d1 := generate_daily_phrases d env
  let r :=
    if env.reward_type = "ai_image" then
      if env.openai_enabled then
        CHILDREN.foldl
          (fun (acc : Data × List Eff) c =>
            let g := generate_reward acc.1 env c true
            (g.1, acc.2 ++ g.2)) (d1, [])
      else (d1, [])
    else if env.reward_type = "youtube_video" then
      (CHILDREN.foldl
        (fun dd c =>
          match env.youtube c with
          | some vid =>
            match dd.get c with
            | some cd => dd.set c { cd with reward_video_id := some vid }
            | none => dd
          | none => dd) d1, [])
    else (d1, [])
  (r.1, r.2 ++ [Eff.saveData])

/-- The target selection of `reset_routine`:
`[child] if child and child in CHILDREN else CHILDREN`, `None` and the empty
string being falsy. -/
def children_to_reset (child : Option String) : List String :=
  match child with
  | some c => if c ≠ "" ∧ c ∈ CHILDREN then [c] else CHILDREN
  | none => CHILDREN

/-- The per-child body of the reset loop in `reset_routine`: fixed default
activities, cleared photo, audio and rewards, and a fresh `last_reset`. -/
def reset_child (cd : ChildData) (now : String) : ChildData :=
  { cd with
    activities := get_default_activities
    photo_path := none
    audio_recording := none
    reward_image := none
    reward_video_id := none
    last_reset := some now }

/-- `reset_routine(child)`: reset the selected children, save, sync the
calendar, pre-generate daily content, fire the `*_reset` event carrying the
reset children, and refresh the coordinator. -/
def reset_routine (d : Data) (env : Env) (child : Option String) (now : String) :
    Data × List Eff :=
  let targets := children_to_reset child
  let d1 := targets.foldl
    (fun dd c =>
      match dd.get c with
      | some cd => dd.set c (reset_child cd now)
      | none => dd) d
  let s := sync_calendar d1 env.calendarEvents now
  let g := generate_daily_content s.1 env
  (g.1, [Eff.saveData] ++ s.2 ++ g.2 ++
    [Eff.resetEvent targets now, Eff.setUpdatedData])

/-- One stored NFC mapping value: the dictionary
`mappings[tag_id] = ... child ... activity ...` written by `_handle_nfc_tag`. -/
structure NfcMapping where
  child : String
  activity : String
deriving DecidableEq, Repr

/-- The NFC mappings dictionary stored in the config entry under
`CONF_NFC_MAPPINGS`, as an insertion-ordered key/value list; a real Python
dictionary has pairwise distinct keys. -/
abbrev Mappings := List (String × NfcMapping)

/-- Dictionary lookup `mappings.get(tag_id)`. -/
def dictGet (m : Mappings) (k : String) : Option NfcMapping :=
  match m with
  | [] => none
  | p :: rest => if p.1 = k then some p.2 else dictGet rest k

/-- Dictionary update `mappings[tag_id] = v`: replace the value of an
existing key in place, else append the new pair. -/
def dictInsert (m : Mappings) (k : String) (v : NfcMapping) : Mappings :=
  match m with
  | [] => [(k, v)]
  | p :: rest => if p.1 = k then (k, v) :: rest else p :: dictInsert rest k v

/-- Dictionary removal `mappings.pop(tag_id)`. -/
def dictPop (m : Mappings) (k : String) : Mappings :=
  match m with
  | [] => []
  | p :: rest => if p.1 = k then rest else p :: dictPop rest k

/-- The NFC-related mutable state: the stored tag mappings, the pending
`_waiting_for_tag` request, and whether the `async_call_later` timeout timer
armed by `add_nfc_mapping` is still pending (not yet cancelled or fired). -/
structure NfcState where
  mappings : Mappings
  waiting : Option NfcMapping
  timerArmed : Bool
deriving DecidableEq, Repr

/-- Result of a service method that may raise: the (possibly unchanged)
state, the emitted effects, and the `ValueError` message when one is raised.
The source methods validate before mutating, so a raise leaves the state as
it was. -/
structure OpResult where
  state : NfcState
  effs : List Eff
  error : Option String
deriving Repr

/-- `add_nfc_mapping(child, activity, timeout)`: raise a `ValueError` for an
unknown child or activity; otherwise cancel any pending timer, arm the
timeout, record the waiting request and post the waiting notification. -/
def add_nfc_mapping (st : NfcState) (child activity : String) : OpResult :=
  if child ∈ CHILDREN then
    if activity ∈ activityTypeIds then
      { state :=
          { st with
            waiting := some { child := child, activity := activity }
            timerArmed := true }
        effs := [Eff.notify "morning_routine_waiting_tag"]
        error := none }
    else { state := st, effs := [], error := some ("Unknown activity: " ++ activity) }
  else { state := st, effs := [], error := some ("Unknown child: " ++ child) }

/-- `remove_nfc_mapping(tag_id)`: raise a `ValueError` when the tag is not
among the stored mappings, otherwise pop it and notify. -/
def remove_nfc_mapping (st : NfcState) (tag_id : String) : OpResult :=
  match dictGet st.mappings tag_id with
  | none => { state := st, effs := [],
              error := some ("Tag " ++ tag_id ++ " not found") }
  | some _ => { state := { st with mappings := dictPop st.mappings tag_id },
                effs := [Eff.notify "morning_routine_nfc_removed"], error := none }

/-- `_handle_nfc_tag` on a `tag_scanned` event.  While a mapping request is
pending: cancel the timeout, store the tag mapping, notify, and clear the
waiting state.  Otherwise: an unknown tag only posts a notification, and a
known tag completes the mapped child/activity. -/
def handle_nfc_tag (st : NfcState) (d : Data) (env : Env) (tag_id : String)
    (device_id : Option String) (now : String) : NfcState × Data × List Eff :=
  match st.waiting with
  | some w =>
    ({ mappings := dictInsert st.mappings tag_id w, waiting := none,
       timerArmed := false },
     d, [Eff.notify "morning_routine_nfc_mapped"])
  | none =>
    match dictGet st.mappings tag_id with
    | none => (st, d, [Eff.notify "morning_routine_unknown_tag"])
    | some m =>
      let r := complete_activity d env m.child m.activity device_id true now
      (st, r.1, r.2)

/-- The timeout handler scheduled by `add_nfc_mapping` firing: it runs only
while the timer is still armed (cancellation prevents it), and clears a
pending waiting request with a timeout notification. -/
def nfc_timeout_fires (st : NfcState) : NfcState × List Eff :=
  if st.timerArmed then
    match st.waiting with
    | some _ => ({ st with waiting := none, timerArmed := false },
                 [Eff.notify "morning_routine_nfc_timeout"])
    | none => ({ st with timerArmed := false }, [])
  else (st, [])

/-- Python's `str.capitalize()`: first character upper-cased, the rest
lower-cased. -/
def pyCapitalize (s : String) : String :=
  match s.data with
  | [] => ""
  | c :: cs => String.mk (c.toUpper :: cs.map Char.toLower)

/-- The display name `ACTIVITY_TYPES.get(activity, ...).get("name", activity)`
used by `list_nfc_mappings`. -/
def activityDisplayName (activity : String) : String :=
  match (ACTIVITY_TYPES.find? (fun p => p.1 == activity)).map (fun p => p.2) with
  | some cfg => cfg.name
  | none => activity

/-- `list_nfc_mappings()`: the formatted per-tag display dictionary and the
returned `count`. -/
def list_nfc_mappings (m : Mappings) : List (String × String) × Nat :=
  let formatted := m.map (fun p =>
    (p.1, pyCapitalize p.2.child ++ " - " ++ activityDisplayName p.2.activity))
  (formatted, formatted.length)

/-- A voluptuous service schema as declared in `__init__.py`: its required
and optional field names.  `vol.Schema` with no `extra` argument rejects
undeclared keys and missing required keys. -/
structure Schema where
  required : List String
  optionalKeys : List String
deriving DecidableEq, Repr

/-- Whether the schema accepts a call whose data has exactly the given keys. -/
def Schema.accepts (s : Schema) (keys : List String) : Bool :=
  s.required.all (fun r => r ∈ keys) &&
    keys.all (fun k => k ∈ s.required || k ∈ s.optionalKeys)

/-- The service registration table of `async_setup_entry`: each
`hass.services.async_register` call, in order, with the schema passed (or
`none` when the call passes no `schema=` argument). -/
def registeredServices : List (String × Option Schema) :=
  [ ("complete_activity", some { required := ["child", "activity"],
                                 optionalKeys := ["completed"] }),
    ("save_photo", some { required := ["child", "photo_data"], optionalKeys := [] }),
    ("save_audio", some { required := ["child", "audio_data"], optionalKeys := [] }),
    ("reset_routine", some { required := [], optionalKeys := ["child"] }),
    ("regenerate_reward", some { required := ["child"], optionalKeys := [] }),
    ("add_nfc_mapping", some { required := ["child", "activity"],
                               optionalKeys := ["timeout"] }),
    ("remove_nfc_mapping", some { required := ["tag_id"], optionalKeys := [] }),
    ("list_nfc_mappings", none),
    ("announce_time_remaining", none),
    ("announce_time_with_weather", none),
    ("announce_time_with_activities", none),
    ("test_announce_completion", some { required := ["child"], optionalKeys := [] }),
    ("get_history", some { required := ["child"], optionalKeys := [] }) ]

/-- `MorningRoutineChildSensor.native_value` (`sensor.py`): 0 when the
coordinator has no data or none for this child or the activity list is
empty, else the truncated completion percentage (the same expression as
`_calculate_progress`). -/
def nativeValue (d : Option Data) (child : String) : Nat :=
  match d with
  | none => 0
  | some dd =>
    match dd.get child with
    | none => 0
    | some cd => calculate_progress cd.activities

/-- The `all_complete` entry of
`MorningRoutineChildSensor.extra_state_attributes`:
`self.native_value == 100`. -/
def allCompleteAttr (d : Option Data) (child : String) : Bool :=
  nativeValue d child == 100

/-! ### Dictionary lemmas -/

lemma dictGet_eq_none_iff (m : Mappings) (k : String) :
    dictGet m k = none ↔ k ∉ m.map Prod.fst := by
  induction m with
  | nil => simp [dictGet]
  | cons p rest ih =>
    by_cases h : p.1 = k
    · simp [dictGet, h]
    · have h2 : k ≠ p.1 := fun hh => h hh.symm
      simp [dictGet, h, ih, h2]

lemma dictGet_insert_self (m : Mappings) (k : String) (v : NfcMapping) :
    dictGet (dictInsert m k v) k = some v := by
  induction m with
  | nil => simp [dictInsert, dictGet]
  | cons p rest ih =>
    by_cases h : p.1 = k <;> simp [dictInsert, h, dictGet, ih]

lemma dictGet_insert_ne (m : Mappings) (k t : String) (v : NfcMapping)
    (h : t ≠ k) : dictGet (dictInsert m k v) t = dictGet m t := by
  have hkt : ¬ (k = t) := fun hh => h hh.symm
  induction m with
  | nil => simp [dictInsert, dictGet, hkt]
  | cons p rest ih =>
    by_cases hpk : p.1 = k
    · have hpt : ¬ p.1 = t := by rw [hpk]; exact hkt
      simp only [dictInsert, if_pos hpk, dictGet, if_neg hkt, if_neg hpt]
    · simp only [dictInsert, if_neg hpk, dictGet]
      by_cases hpt : p.1 = t
      · simp only [if_pos hpt]
      · simp only [if_neg hpt, ih]

lemma dictGet_pop_self (m : Mappings) (k : String)
    (h : (m.map Prod.fst).Nodup) : dictGet (dictPop m k) k = none := by
  induction m with
  | nil => simp [dictPop, dictGet]
  | cons p rest ih =>
    simp only [List.map_cons, List.nodup_cons] at h
    by_cases hpk : p.1 = k
    · simp only [dictPop, if_pos hpk]
      exact (dictGet_eq_none_iff rest k).mpr (hpk ▸ h.1)
    · simp only [dictPop, if_neg hpk, dictGet, if_neg hpk]
      exact ih h.2

lemma dictGet_pop_ne (m : Mappings) (k t : String) (h : t ≠ k) :
    dictGet (dictPop m k) t = dictGet m t := by
  induction m with
  | nil => rfl
  | cons p rest ih =>
    by_cases hpk : p.1 = k
    · have hpt : ¬ p.1 = t := by rw [hpk]; exact fun hh => h hh.symm
      simp only [dictPop, if_pos hpk, dictGet, if_neg hpt]
    · simp only [dictPop, if_neg hpk, dictGet]
      by_cases hpt : p.1 = t
      · simp only [if_pos hpt]
      · simp only [if_neg hpt, ih]

/-! ### Claim C3 -/

/-- Claim C3: `add_nfc_mapping` raises a `ValueError` exactly when the child
is not in `CHILDREN` or the activity is not in `ACTIVITY_TYPES`, and
`remove_nfc_mapping` raises exactly when the tag id is not among the stored
NFC mappings; in each error case the stored mappings and the waiting-for-tag
state are left unchanged. -/
theorem nfc_service_validation :
    (∀ st child activity,
        ((add_nfc_mapping st child activity).error.isSome = true ↔
          (child ∉ CHILDREN ∨ activity ∉ activityTypeIds)) ∧
        ((add_nfc_mapping st child activity).error.isSome = true →
          (add_nfc_mapping st child activity).state = st)) ∧
    (∀ st tag,
        ((remove_nfc_mapping st tag).error.isSome = true ↔
          dictGet st.mappings tag = none) ∧
        ((remove_nfc_mapping st tag).error.isSome = true →
          (remove_nfc_mapping st tag).state = st)) := by
  constructor
  · intro st child activity
    unfold add_nfc_mapping
    by_cases hc : child ∈ CHILDREN <;> by_cases ha : activity ∈ activityTypeIds <;>
      simp [hc, ha]
  · intro st tag
    unfold remove_nfc_mapping
    cases h : dictGet st.mappings tag <;> simp [h]

/-- Witness for C3: both validation failures at concrete inputs, each
leaving the state untouched. -/
theorem nfc_service_validation_witness :
    (add_nfc_mapping ⟨[], none, false⟩ "bob" "dressed").state = ⟨[], none, false⟩ ∧
    (remove_nfc_mapping ⟨[], none, false⟩ "tag-42").state = ⟨[], none, false⟩ :=
  ⟨(nfc_service_validation.1 ⟨[], none, false⟩ "bob" "dressed").2 (by decide),
   (nfc_service_validation.2 ⟨[], none, false⟩ "tag-42").2 (by decide)⟩

/-! ### Claim C4 -/

/-- Counterexample for C4: the claim that every registered service of the
integration carries a validated input schema is false — `list_nfc_mappings`
(and the three announcement services) are registered with no schema. -/
theorem service_schema_counterexample :
    ¬ (∀ p ∈ registeredServices, p.2.isSome = true) := by decide

/-- Claim C4 (amended): every registered service except `list_nfc_mappings`
and the three announcement services (`announce_time_remaining`,
`announce_time_with_weather`, `announce_time_with_activities`) is registered
with a validated schema, and that schema accepts exactly the calls providing
every required field and no undeclared field. -/
theorem service_schema_amended :
    ∀ p ∈ registeredServices,
      p.1 ≠ "list_nfc_mappings" → p.1 ≠ "announce_time_remaining" →
      p.1 ≠ "announce_time_with_weather" → p.1 ≠ "announce_time_with_activities" →
      ∃ s, p.2 = some s ∧
        ∀ keys : List String, s.accepts keys = true ↔
          ((∀ r ∈ s.required, r ∈ keys) ∧
            ∀ k ∈ keys, k ∈ s.required ∨ k ∈ s.optionalKeys) := by
  intro p hp h1 h2 h3 h4
  fin_cases hp <;>
    first
      | (exact absurd rfl h1)
      | (exact absurd rfl h2)
      | (exact absurd rfl h3)
      | (exact absurd rfl h4)
      | (exact ⟨_, rfl, fun keys => by
          simp [Schema.accepts, List.all_eq_true, Bool.or_eq_true,
            decide_eq_true_eq]⟩)

/-- The first registration entry of `async_setup_entry`, used as a concrete
instance for the amended C4 claim. -/
def completeActivityEntry : String × Option Schema :=
  ("complete_activity",
   some { required := ["child", "activity"], optionalKeys := ["completed"] })

/-- Witness for C4 (amended): the `complete_activity` schema, applied at a
concrete registration entry. -/
theorem service_schema_amended_witness :
    ∃ s, completeActivityEntry.2 = some s ∧
      ∀ keys : List String, s.accepts keys = true ↔
        ((∀ r ∈ s.required, r ∈ keys) ∧
          ∀ k ∈ keys, k ∈ s.required ∨ k ∈ s.optionalKeys) :=
  service_schema_amended completeActivityEntry (by decide) (by decide) (by decide)
    (by decide) (by decide)

/-! ### Claim C6 -/

/-- Claim C6: NFC tag mapping is guarded by a timeout.  A successful
`add_nfc_mapping` arms the waiting state and the timeout timer; the next
`tag_scanned` event while waiting maps that tag, clears the waiting state and
cancels the timer; the timeout firing while armed clears the waiting state;
and a tag scanned after that, being unknown, changes nothing and only posts
the unknown-tag notification. -/
theorem nfc_tag_timeout_protocol :
    (∀ st child activity, child ∈ CHILDREN → activity ∈ activityTypeIds →
        (add_nfc_mapping st child activity).state.waiting
            = some { child := child, activity := activity } ∧
        (add_nfc_mapping st child activity).state.timerArmed = true) ∧
    (∀ st d env tag dev now w, st.waiting = some w →
        (handle_nfc_tag st d env tag dev now).1.waiting = none ∧
        (handle_nfc_tag st d env tag dev now).1.timerArmed = false ∧
        dictGet (handle_nfc_tag st d env tag dev now).1.mappings tag = some w) ∧
    (∀ st, st.timerArmed = true →
        (nfc_timeout_fires st).1.waiting = none ∧
        (nfc_timeout_fires st).1.timerArmed = false) ∧
    (∀ st d env tag dev now, st.waiting = none → dictGet st.mappings tag = none →
        (handle_nfc_tag st d env tag dev now).1 = st ∧
        (handle_nfc_tag st d env tag dev now).2.1 = d ∧
        (handle_nfc_tag st d env tag dev now).2.2
          = [Eff.notify "morning_routine_unknown_tag"]) := by
  refine ⟨?_, ?_, ?_, ?_⟩
  · intro st child activity hc ha
    simp [add_nfc_mapping, hc, ha]
  · intro st d env tag dev now w hw
    simp [handle_nfc_tag, hw, dictGet_insert_self]
  · intro st harm
    unfold nfc_timeout_fires
    rw [if_pos harm]
    cases hw : st.waiting <;> simp
  · intro st d env tag dev now hw hm
    simp [handle_nfc_tag, hw, hm]

/-- Witness for C6: a concrete add-then-timeout-then-scan run: the mapping
request for duarte/schoolbag is armed, the timeout clears it, and a scan of
the unknown tag afterwards leaves the (empty) mappings unchanged. -/
theorem nfc_tag_timeout_protocol_witness :
    ((add_nfc_mapping ⟨[], none, false⟩ "duarte" "schoolbag").state.waiting
        = some { child := "duarte", activity := "schoolbag" } ∧
      (add_nfc_mapping ⟨[], none, false⟩ "duarte" "schoolbag").state.timerArmed = true) ∧
    ((nfc_timeout_fires ⟨[], some ⟨"duarte", "schoolbag"⟩, true⟩).1.waiting = none ∧
      (nfc_timeout_fires ⟨[], some ⟨"duarte", "schoolbag"⟩, true⟩).1.timerArmed = false) ∧
    ((handle_nfc_tag ⟨[], none, false⟩ initialData {} "tag-9" none "T").1
        = ⟨[], none, false⟩ ∧
      (handle_nfc_tag ⟨[], none, false⟩ initialData {} "tag-9" none "T").2.1
        = initialData ∧
      (handle_nfc_tag ⟨[], none, false⟩ initialData {} "tag-9" none "T").2.2
        = [Eff.notify "morning_routine_unknown_tag"]) :=
  ⟨nfc_tag_timeout_protocol.1 ⟨[], none, false⟩ "duarte" "schoolbag"
      (by decide) (by decide),
   nfc_tag_timeout_protocol.2.2.1 ⟨[], some ⟨"duarte", "schoolbag"⟩, true⟩ rfl,
   nfc_tag_timeout_protocol.2.2.2 ⟨[], none, false⟩ initialData {} "tag-9" none "T"
      rfl rfl⟩

/-! ### Claim C5 -/

/-- Claim C5: every stored NFC mapping associates one tag with exactly one
(child, activity) pair: a scan while a mapping request is pending stores that
pair under the scanned tag id leaving other tags unchanged,
`remove_nfc_mapping` removes exactly the given tag's entry leaving all other
entries unchanged, and `list_nfc_mappings` returns one formatted entry per
stored tag with a count equal to the number of stored mappings. -/
theorem nfc_mapping_shape :
    (∀ st d env tag dev now w, st.waiting = some w →
        dictGet (handle_nfc_tag st d env tag dev now).1.mappings tag = some w ∧
        ∀ t, t ≠ tag →
          dictGet (handle_nfc_tag st d env tag dev now).1.mappings t
            = dictGet st.mappings t) ∧
    (∀ st tag m, dictGet st.mappings tag = some m →
        (st.mappings.map Prod.fst).Nodup →
        (remove_nfc_mapping st tag).error = none ∧
        dictGet (remove_nfc_mapping st tag).state.mappings tag = none ∧
        ∀ t, t ≠ tag →
          dictGet (remove_nfc_mapping st tag).state.mappings t
            = dictGet st.mappings t) ∧
    (∀ m : Mappings, (list_nfc_mappings m).2 = m.length ∧
        (list_nfc_mappings m).1.map Prod.fst = m.map Prod.fst) := by
  refine ⟨?_, ?_, ?_⟩
  · intro st d env tag dev now w hw
    refine ⟨?_, ?_⟩
    · simp [handle_nfc_tag, hw, dictGet_insert_self]
    · intro t ht
      simp [handle_nfc_tag, hw, dictGet_insert_ne _ _ _ _ ht]
  · intro st tag m hm hnd
    refine ⟨?_, ?_, ?_⟩
    · simp [remove_nfc_mapping, hm]
    · simp [remove_nfc_mapping, hm, dictGet_pop_self _ _ hnd]
    · intro t ht
      simp [remove_nfc_mapping, hm, dictGet_pop_ne _ _ _ ht]
  · intro m
    refine ⟨?_, ?_⟩ <;> simp [list_nfc_mappings]

/-- Witness for C5: a scan while waiting stores the pair under the scanned
tag and preserves the other stored tag, and removing a tag from a two-entry
dictionary keeps exactly the other entry. -/
theorem nfc_mapping_shape_witness :
    (dictGet (handle_nfc_tag
        ⟨[("t1", ⟨"leonor", "music"⟩)], some ⟨"duarte", "schoolbag"⟩, true⟩
        initialData {} "t2" none "T").1.mappings "t2"
      = some ⟨"duarte", "schoolbag"⟩) ∧
    (dictGet (remove_nfc_mapping
        ⟨[("t1", ⟨"leonor", "music"⟩), ("t2", ⟨"duarte", "schoolbag"⟩)], none, false⟩
        "t1").state.mappings "t1" = none) ∧
    (dictGet (remove_nfc_mapping
        ⟨[("t1", ⟨"leonor", "music"⟩), ("t2", ⟨"duarte", "schoolbag"⟩)], none, false⟩
        "t1").state.mappings "t2" = some ⟨"duarte", "schoolbag"⟩) :=
  ⟨(nfc_mapping_shape.1
      ⟨[("t1", ⟨"leonor", "music"⟩)], some ⟨"duarte", "schoolbag"⟩, true⟩
      initialData {} "t2" none "T" ⟨"duarte", "schoolbag"⟩ rfl).1,
   (nfc_mapping_shape.2.1
      ⟨[("t1", ⟨"leonor", "music"⟩), ("t2", ⟨"duarte", "schoolbag"⟩)], none, false⟩
      "t1" ⟨"leonor", "music"⟩ (by decide) (by decide)).2.1,
   ((nfc_mapping_shape.2.1
      ⟨[("t1", ⟨"leonor", "music"⟩), ("t2", ⟨"duarte", "schoolbag"⟩)], none, false⟩
      "t1" ⟨"leonor", "music"⟩ (by decide) (by decide)).2.2 "t2" (by decide)).trans
      (by decide)⟩

/-! ### Claim C2 -/

/-- Claim C2: for every known child, when the reward type is `youtube_video`
and the playlist fetch yields no video id, or when it is `ai_image` and
OpenAI is disabled, no OpenAI config entry can be resolved, the OpenAI call
raises, or the response carries no image URL, `generate_reward` falls back to
the quote reward: outside save-only mode it fires the routine-complete event
with reward type `quote` (the embedding is total, so no exception escapes). -/
theorem reward_falls_back_to_quote (d : Data) (env : Env) (child : String)
    (cd : ChildData) (hchild : d.get child = some cd)
    (hfail :
      (env.reward_type = "youtube_video" ∧ env.youtube child = none) ∨
      (env.reward_type = "ai_image" ∧
        (env.openai_enabled = false ∨
          (env.openai_entry = none ∧ env.openai_first = none) ∨
          env.ai child = .callRaises ∨ env.ai child = .noUrl))) :
    Eff.routineCompleteEvent child "quote" none none
      ∈ (generate_reward d env child false).2 := by
  rcases hfail with ⟨hrt, hyt⟩ | ⟨hrt, hcase⟩
  · simp [generate_reward, hchild, hrt, hyt, quoteBranch]
  · cases hen : env.openai_enabled
    · simp [generate_reward, hchild, hrt, hen, quoteBranch]
    · rcases hcase with hen2 | ⟨he, hf⟩ | hai | hai
      · rw [hen] at hen2; exact absurd hen2 (by decide)
      · have hre : resolveEntry env = none := by simp [resolveEntry, he, hf]
        simp [generate_reward, hchild, hrt, hen, hre, quoteBranch]
      · cases hre : resolveEntry env <;>
          simp [generate_reward, hchild, hrt, hen, hre, hai, quoteBranch]
      · cases hre : resolveEntry env <;>
          simp [generate_reward, hchild, hrt, hen, hre, hai, quoteBranch]

/-- Witness for C2: a failed YouTube fetch at a concrete state fires the
quote completion event. -/
theorem reward_falls_back_to_quote_witness :
    Eff.routineCompleteEvent "duarte" "quote" none none
      ∈ (generate_reward initialData { reward_type := "youtube_video" }
          "duarte" false).2 :=
  reward_falls_back_to_quote initialData { reward_type := "youtube_video" }
    "duarte" initialChildData rfl (Or.inl ⟨rfl, rfl⟩)

/-! ### Claim C7 -/

/-- Claim C7: for every known child and existing activity id,
`complete_activity` fires the `morning_routine_activity_completed` event
carrying the child, activity, completed flag, post-update progress and
timestamp; `reset_routine` always fires the `morning_routine_reset` event
carrying the reset children; the integration listens for the external
`tag_scanned` event; and `complete_activity` on an unknown child or a
missing activity id fires no event (its effect trace is empty). -/
theorem event_bus_contract :
    (∀ d env child act dev c now cd, d.get child = some cd →
        (markActivity cd.activities act dev c now).2 = true →
        Eff.activityCompletedEvent child act c
            (calculate_progress (markActivity cd.activities act dev c now).1) now
          ∈ (complete_activity d env child act dev c now).2) ∧
    (∀ d env child now,
        Eff.resetEvent (children_to_reset child) now
          ∈ (reset_routine d env child now).2) ∧
    ("tag_scanned" ∈ listenedBusEvents) ∧
    (∀ child act c p t,
        (Eff.activityCompletedEvent child act c p t).firedEventType
          = some "morning_routine_activity_completed") ∧
    (∀ cs t, (Eff.resetEvent cs t).firedEventType = some "morning_routine_reset") ∧
    (∀ d env child act dev c now, d.get child = none →
        (complete_activity d env child act dev c now).2 = []) ∧
    (∀ d env child act dev c now cd, d.get child = some cd →
        (markActivity cd.activities act dev c now).2 = false →
        (complete_activity d env child act dev c now).2 = []) := by
  refine ⟨?_, ?_, ?_, ?_, ?_, ?_, ?_⟩
  · intro d env child act dev c now cd hchild hfound
    simp only [complete_activity, hchild, hfound, if_true]
    split <;> simp
  · intro d env child now
    simp [reset_routine]
  · simp [listenedBusEvents]
  · intro child act c p t
    rfl
  · intro cs t
    rfl
  · intro d env child act dev c now h
    simp [complete_activity, h]
  · intro d env child act dev c now cd hchild hfound
    simp [complete_activity, hchild, hfound]

/-- Witness for C7: the concrete events fired when duarte completes
`dressed` on fresh data, and the empty traces for an unknown child and a
missing activity id. -/
theorem event_bus_contract_witness :
    (Eff.activityCompletedEvent "duarte" "dressed" true
        (calculate_progress
          (markActivity initialChildData.activities "dressed" none true "T").1) "T"
      ∈ (complete_activity initialData {} "duarte" "dressed" none true "T").2) ∧
    (Eff.resetEvent (children_to_reset none) "T"
      ∈ (reset_routine initialData {} none "T").2) ∧
    ((complete_activity initialData {} "bob" "dressed" none true "T").2 = []) ∧
    ((complete_activity initialData {} "duarte" "nothere" none true "T").2 = []) :=
  ⟨event_bus_contract.1 initialData {} "duarte" "dressed" none true "T"
      initialChildData rfl (by decide),
   event_bus_contract.2.1 initialData {} none "T",
   event_bus_contract.2.2.2.2.2.1 initialData {} "bob" "dressed" none true "T" rfl,
   event_bus_contract.2.2.2.2.2.2 initialData {} "duarte" "nothere" none true "T"
      initialChildData rfl (by decide)⟩

/-! ### Claim C1 -/

/-- Claim C1: for every child of `CHILDREN`, when `complete_activity` marks
the last still-pending activity complete (so that afterwards every activity
of the child is completed), `generate_reward` for that child is invoked and
the completion announcement follows it in the effect trace; marking an
activity complete while others remain pending, or marking an activity
incomplete, never invokes `generate_reward`. -/
theorem completion_triggers_reward :
    (∀ d env child act dev now cd, d.get child = some cd →
        (markActivity cd.activities act dev true now).2 = true →
        is_child_complete (markActivity cd.activities act dev true now).1 = true →
        ∃ pre mid post, (complete_activity d env child act dev true now).2
          = pre ++ Eff.generateRewardCall child ::
              (mid ++ Eff.announceCompletion child :: post)) ∧
    (∀ d env child act dev now cd, d.get child = some cd →
        is_child_complete (markActivity cd.activities act dev true now).1 = false →
        Eff.generateRewardCall child
          ∉ (complete_activity d env child act dev true now).2) ∧
    (∀ d env child act dev now c,
        Eff.generateRewardCall c
          ∉ (complete_activity d env child act dev false now).2) := by
  refine ⟨?_, ?_, ?_⟩
  · intro d env child act dev now cd hchild hfound hall
    simp only [complete_activity, hchild, hfound, if_true, hall, Bool.and_self]
    exact ⟨[Eff.saveData,
      Eff.activityCompletedEvent child act true
        (calculate_progress (markActivity cd.activities act dev true now).1) now],
      (generate_reward (d.set child
        { cd with
          activities := (markActivity cd.activities act dev true now).1
          last_activity_time := some now }) env child false).2,
      [Eff.setUpdatedData], rfl⟩
  · intro d env child act dev now cd hchild hall
    cases hfound : (markActivity cd.activities act dev true now).2 <;>
      simp [complete_activity, hchild, hfound, hall]
  · intro d env child act dev now c
    cases hchild : d.get child with
    | none => simp [complete_activity, hchild]
    | some cd0 =>
      cases hfound : (markActivity cd0.activities act dev false now).2 <;>
        simp [complete_activity, hchild, hfound]

/-- Witness for C1: completing the one pending activity of a child whose
other four activities are already completed invokes the reward generation
followed by the announcement. -/
theorem completion_triggers_reward_witness :
    ∃ pre mid post,
      (complete_activity
        { duarte :=
            { activities := get_default_activities.map
                (fun a => if a.id = "teeth" then a else { a with completed := true }) }
          leonor := initialChildData }
        {} "duarte" "teeth" none true "T").2
        = pre ++ Eff.generateRewardCall "duarte" ::
            (mid ++ Eff.announceCompletion "duarte" :: post) :=
  completion_triggers_reward.1
    { duarte :=
        { activities := get_default_activities.map
            (fun a => if a.id = "teeth" then a else { a with completed := true }) }
      leonor := initialChildData }
    {} "duarte" "teeth" none "T" _ rfl (by decide) (by decide)

/-! ### Claim C9 -/

lemma calculate_progress_le (acts : List Activity) : calculate_progress acts ≤ 100 := by
  unfold calculate_progress
  by_cases h : acts.isEmpty
  · simp [h]
  · have hne : acts ≠ [] := by simpa [List.isEmpty_iff] using h
    have hlen : 0 < acts.length := List.length_pos.mpr hne
    rw [if_neg h]
    calc acts.countP (fun a => a.completed) * 100 / acts.length
        ≤ acts.length * 100 / acts.length :=
          Nat.div_le_div_right (Nat.mul_le_mul_right 100 (List.countP_le_length _))
      _ = 100 := by rw [Nat.mul_comm, Nat.mul_div_cancel _ hlen]

lemma calculate_progress_eq_floor (acts : List Activity) (h : acts ≠ []) :
    calculate_progress acts =
      Nat.floor ((acts.countP (fun a => a.completed) : ℚ) / acts.length * 100) := by
  have hE : ((acts.countP (fun a => a.completed) : ℚ) / acts.length * 100)
      = ((acts.countP (fun a => a.completed) * 100 : ℕ) : ℚ) / (acts.length : ℚ) := by
    push_cast
    ring
  unfold calculate_progress
  rw [if_neg (by simpa [List.isEmpty_iff] using h), hE, Nat.floor_div_nat,
    Nat.floor_natCast]

lemma calculate_progress_eq_100 (acts : List Activity) :
    calculate_progress acts = 100 ↔
      acts ≠ [] ∧ ∀ a ∈ acts, a.completed = true := by
  unfold calculate_progress
  by_cases h : acts.isEmpty
  · have : acts = [] := by simpa [List.isEmpty_iff] using h
    simp [h, this]
  · have hne : acts ≠ [] := by simpa [List.isEmpty_iff] using h
    have hlen : 0 < acts.length := List.length_pos.mpr hne
    rw [if_neg h]
    constructor
    · intro hq
      refine ⟨hne, ?_⟩
      have hcl : acts.countP (fun a => a.completed) = acts.length := by
        by_contra hc
        have hlt : acts.countP (fun a => a.completed) < acts.length :=
          lt_of_le_of_ne (List.countP_le_length _) hc
        have : acts.countP (fun a => a.completed) * 100 / acts.length < 100 := by
          rw [Nat.div_lt_iff_lt_mul hlen]
          omega
        omega
      intro a ha
      simpa using (List.countP_eq_length.mp hcl) a ha
    · rintro ⟨-, hall⟩
      have hcl : acts.countP (fun a => a.completed) = acts.length :=
        List.countP_eq_length.mpr (fun a ha => by simpa using hall a ha)
      rw [hcl, Nat.mul_comm, Nat.mul_div_cancel _ hlen]

/-- A coordinator state whose duarte entry has an empty activity list (the
case `native_value` and `_calculate_progress` guard with `if not activities`). -/
def emptyActsData : Data :=
  { duarte := { activities := [] }, leonor := initialChildData }

/-- Counterexample for C9: on an empty activity list every activity is
(vacuously) completed, yet the sensor reports 0, not 100 — so the claimed
equivalence between reporting 100 and all activities being completed fails. -/
theorem sensor_progress_counterexample :
    emptyActsData.get "duarte" = some ({ activities := [] } : ChildData) ∧
    ¬ (nativeValue (some emptyActsData) "duarte" = 100 ↔
        ∀ a ∈ ([] : List Activity), a.completed = true) := by decide

/-- Claim C9 (amended): the child sensor's progress value is at most 100; it
is 0 when the coordinator has no data, no entry for the child, or an empty
activity list; otherwise it is the floor of completed/total × 100; it equals
100 exactly when the activity list is nonempty and every activity is
completed; and the `all_complete` attribute is true exactly when the value
is 100. -/
theorem sensor_progress_amended :
    (∀ od child, nativeValue od child ≤ 100) ∧
    (∀ child, nativeValue none child = 0) ∧
    (∀ dd child, dd.get child = none → nativeValue (some dd) child = 0) ∧
    (∀ dd child cd, dd.get child = some cd → cd.activities = [] →
        nativeValue (some dd) child = 0) ∧
    (∀ dd child cd, dd.get child = some cd → cd.activities ≠ [] →
        nativeValue (some dd) child
          = Nat.floor ((cd.activities.countP (fun a => a.completed) : ℚ)
              / cd.activities.length * 100)) ∧
    (∀ dd child cd, dd.get child = some cd →
        (nativeValue (some dd) child = 100 ↔
          cd.activities ≠ [] ∧ ∀ a ∈ cd.activities, a.completed = true)) ∧
    (∀ od child, allCompleteAttr od child = true ↔ nativeValue od child = 100) := by
  refine ⟨?_, ?_, ?_, ?_, ?_, ?_, ?_⟩
  · intro od child
    cases od with
    | none => exact Nat.zero_le _
    | some dd =>
      cases h : dd.get child with
      | none => simp [nativeValue, h]
      | some cd => simpa [nativeValue, h] using calculate_progress_le cd.activities
  · intro child
    rfl
  · intro dd child h
    simp [nativeValue, h]
  · intro dd child cd h hemp
    simp [nativeValue, h, calculate_progress, hemp]
  · intro dd child cd h hne
    simp only [nativeValue, h]
    exact calculate_progress_eq_floor cd.activities hne
  · intro dd child cd h
    simp only [nativeValue, h]
    exact calculate_progress_eq_100 cd.activities
  · intro od child
    simp [allCompleteAttr]

/-- Witness for C9 (amended): the equality-with-100 characterization at the
fresh initial data, and the empty-list zero at the concrete empty state. -/
theorem sensor_progress_amended_witness :
    (nativeValue (some initialData) "duarte" = 100 ↔
      initialChildData.activities ≠ [] ∧
        ∀ a ∈ initialChildData.activities, a.completed = true) ∧
    nativeValue (some emptyActsData) "duarte" = 0 :=
  ⟨sensor_progress_amended.2.2.2.2.2.1 initialData "duarte" initialChildData rfl,
   sensor_progress_amended.2.2.2.1 emptyActsData "duarte" { activities := [] } rfl rfl⟩

/-! ### Calendar parsing lemmas -/

lemma parseStep_mem (ms : List CalendarMapping) (now : String)
    (acc : List (String × Activity)) (e : CalEvent) (p : String × Activity)
    (hp : p ∈ parseStep ms now acc e) :
    p ∈ acc ∨ ∃ m, firstMatch ms e.summary = some m ∧
      p = (m.activity.id, mkCalActivity m.activity e.summary now) := by
  cases hfm : firstMatch ms e.summary with
  | none =>
    simp only [parseStep, hfm] at hp
    exact Or.inl hp
  | some m =>
    simp only [parseStep, hfm] at hp
    by_cases hg : acc.any (fun q => q.1 == m.activity.id)
    · rw [if_pos hg] at hp
      exact Or.inl hp
    · rw [if_neg hg] at hp
      rcases List.mem_append.mp hp with h | h
      · exact Or.inl h
      · simp only [List.mem_singleton] at h
        exact Or.inr ⟨m, rfl, h⟩

lemma foldl_parse_mem (ms : List CalendarMapping) (now : String) :
    ∀ (evs : List CalEvent) (acc : List (String × Activity)) (p : String × Activity),
      p ∈ evs.foldl (parseStep ms now) acc →
      p ∈ acc ∨ ∃ e ∈ evs, ∃ m, firstMatch ms e.summary = some m ∧
        p = (m.activity.id, mkCalActivity m.activity e.summary now) := by
  intro evs
  induction evs with
  | nil =>
    intro acc p hp
    exact Or.inl hp
  | cons e evs ih =>
    intro acc p hp
    rw [List.foldl_cons] at hp
    rcases ih _ p hp with h | ⟨e2, he2, m, hm, hpv⟩
    · rcases parseStep_mem ms now acc e p h with h2 | ⟨m, hm, hpv⟩
      · exact Or.inl h2
      · exact Or.inr ⟨e, List.mem_cons_self _ _, m, hm, hpv⟩
    · exact Or.inr ⟨e2, List.mem_cons_of_mem _ he2, m, hm, hpv⟩

lemma foldl_parse_keys_nodup (ms : List CalendarMapping) (now : String) :
    ∀ (evs : List CalEvent) (acc : List (String × Activity)),
      (acc.map Prod.fst).Nodup →
      ((evs.foldl (parseStep ms now) acc).map Prod.fst).Nodup := by
  intro evs
  induction evs with
  | nil =>
    intro acc h
    exact h
  | cons e evs ih =>
    intro acc h
    rw [List.foldl_cons]
    apply ih
    cases hfm : firstMatch ms e.summary with
    | none => simpa only [parseStep, hfm] using h
    | some m =>
      simp only [parseStep, hfm]
      by_cases hg : acc.any (fun q => q.1 == m.activity.id)
      · rw [if_pos hg]
        exact h
      · rw [if_neg hg]
        have hid : m.activity.id ∉ acc.map Prod.fst := by
          intro hmem
          rcases List.mem_map.mp hmem with ⟨q, hq, hk⟩
          exact hg (List.any_eq_true.mpr ⟨q, hq, by simp [hk]⟩)
        simp [List.nodup_append, h, hid]

lemma firstMatch_cons (a : CalendarMapping) (rest : List CalendarMapping)
    (s : String) :
    firstMatch (a :: rest) s =
      if fnmatch s a.pattern then some a else firstMatch rest s := by
  by_cases hm : fnmatch s a.pattern = true
  · rw [if_pos hm]
    unfold firstMatch
    exact List.find?_cons_of_pos _ (by simpa using hm)
  · rw [if_neg hm]
    unfold firstMatch
    exact List.find?_cons_of_neg _ (by simpa using hm)

lemma firstMatch_spec (ms : List CalendarMapping) (s : String) (m : CalendarMapping)
    (h : firstMatch ms s = some m) :
    ∃ l1 l2, ms = l1 ++ m :: l2 ∧ fnmatch s m.pattern = true ∧
      ∀ m2 ∈ l1, fnmatch s m2.pattern = false := by
  induction ms with
  | nil => simp [firstMatch] at h
  | cons a rest ih =>
    rw [firstMatch_cons] at h
    by_cases hm : fnmatch s a.pattern
    · rw [if_pos hm] at h
      obtain rfl : a = m := by injection h
      exact ⟨[], rest, rfl, hm, by intro m2 hm2; simp at hm2⟩
    · rw [if_neg hm] at h
      obtain ⟨l1, l2, heq, hm2, hprev⟩ := ih h
      refine ⟨a :: l1, l2, by rw [List.cons_append, heq], hm2, ?_⟩
      intro m2 hmem
      rcases List.mem_cons.mp hmem with rfl | hmem2
      · exact Bool.eq_false_iff.mpr hm
      · exact hprev m2 hmem2

lemma parse_calendar_events_mem (child : String) (events : List CalEvent)
    (now : String) (a : Activity) (ha : a ∈ parse_calendar_events child events now) :
    ∃ ms, lookupChildMappings child = some ms ∧
      ∃ e ∈ events, ∃ m, firstMatch ms e.summary = some m ∧
        a = mkCalActivity m.activity e.summary now := by
  unfold parse_calendar_events at ha
  cases hlk : lookupChildMappings child with
  | none =>
    rw [hlk] at ha
    simp at ha
  | some ms =>
    rw [hlk] at ha
    rcases List.mem_map.mp ha with ⟨p, hp, rfl⟩
    rcases foldl_parse_mem ms now events [] p hp with h | ⟨e, he, m, hm, rfl⟩
    · simp at h
    · exact ⟨ms, rfl, e, he, m, hm, rfl⟩

lemma parse_calendar_events_ids_nodup (child : String) (events : List CalEvent)
    (now : String) :
    ((parse_calendar_events child events now).map (fun a => a.id)).Nodup := by
  unfold parse_calendar_events
  cases hlk : lookupChildMappings child with
  | none => simp
  | some ms =>
    have hpairs : ∀ p ∈ events.foldl (parseStep ms now) [], p.2.id = p.1 := by
      intro p hp
      rcases foldl_parse_mem ms now events [] p hp with h | ⟨e, _, m, _, rfl⟩
      · simp at h
      · rfl
    rw [List.map_map]
    have hmc : (events.foldl (parseStep ms now) []).map ((fun a => a.id) ∘ fun p => p.2)
        = (events.foldl (parseStep ms now) []).map Prod.fst :=
      List.map_congr_left (fun p hp => hpairs p hp)
    rw [hmc]
    exact foldl_parse_keys_nodup ms now events [] (by simp)

/-! ### Claim C10 -/

/-- Claim C10: `_parse_calendar_events` returns at most one activity per
activity id (the returned ids are pairwise distinct), every returned
activity is not completed and has source `calendar`, a child absent from
`CALENDAR_ACTIVITY_MAPPING` yields an empty list, every returned activity
stems from the first pattern of the child's mapping list matching some
event's summary, and the first-matching pattern is matched with every
earlier pattern failing (each event contributes to at most one pattern). -/
theorem calendar_parse_first_match :
    ∀ child events now,
      ((parse_calendar_events child events now).map (fun a => a.id)).Nodup ∧
      (∀ a ∈ parse_calendar_events child events now,
          a.completed = false ∧ a.source = "calendar") ∧
      (lookupChildMappings child = none →
        parse_calendar_events child events now = []) ∧
      (∀ a ∈ parse_calendar_events child events now,
          ∃ ms, lookupChildMappings child = some ms ∧
            ∃ e ∈ events, ∃ m, firstMatch ms e.summary = some m ∧
              a = mkCalActivity m.activity e.summary now) ∧
      (∀ ms s m, firstMatch ms s = some m →
          ∃ l1 l2, ms = l1 ++ m :: l2 ∧ fnmatch s m.pattern = true ∧
            ∀ m2 ∈ l1, fnmatch s m2.pattern = false) := by
  intro child events now
  refine ⟨parse_calendar_events_ids_nodup child events now, ?_, ?_,
    parse_calendar_events_mem child events now,
    fun ms s m h => firstMatch_spec ms s m h⟩
  · intro a ha
    obtain ⟨ms, _, e, _, m, _, rfl⟩ :=
      parse_calendar_events_mem child events now a ha
    exact ⟨rfl, rfl⟩
  · intro hlk
    unfold parse_calendar_events
    rw [hlk]

/-- Witness for C10: the child-not-mapped and first-pattern clauses at
concrete inputs — an unknown child parses to the empty list, and a summary
matching duarte's second pattern is certified as failing the first. -/
theorem calendar_parse_first_match_witness :
    (parse_calendar_events "bob" [{ summary := "D-Natação" }] "T" = []) ∧
    (∃ a ∈ parse_calendar_events "duarte" [{ summary := "D-Natação" }] "T",
      a.completed = false ∧ a.source = "calendar") :=
  ⟨(calendar_parse_first_match "bob" [{ summary := "D-Natação" }] "T").2.2.1
      (by decide),
   ⟨mkCalActivity
      { id := "swimming", name := "Natação", icon := "mdi:swim", nfc_required := true }
      "D-Natação" "T", by decide,
    (calendar_parse_first_match "duarte" [{ summary := "D-Natação" }] "T").2.1
      (mkCalActivity
        { id := "swimming", name := "Natação", icon := "mdi:swim", nfc_required := true }
        "D-Natação" "T") (by decide)⟩⟩

/-! ### Claim C8 -/

/-- The calendar activities appended to a child's freshly reset list during
the `_sync_calendar` step of `reset_routine`. -/
def calendarAdds (env : Env) (c now : String) : List Activity :=
  match env.calendarEvents with
  | none => []
  | some evs => parse_calendar_events c evs now

/-- The value of `reward_video_id` after `reset_routine`: cleared by the
reset and then overwritten by `_generate_daily_content` exactly when the
reward type is `youtube_video` and the pre-fetch yields a video. -/
def expectedRewardVideo (env : Env) (c : String) : Option String :=
  if env.reward_type = "youtube_video" then env.youtube c else none

/-- The value of `reward_image` after `reset_routine`: cleared by the reset
and then overwritten exactly when an enabled AI-image reward is successfully
pre-generated by `generate_reward(child, save_only=True)`. -/
def expectedRewardImage (env : Env) (c : String) : Option String :=
  if env.reward_type = "ai_image" ∧ env.openai_enabled = true then
    match resolveEntry env with
    | none => none
    | some _ =>
      match env.ai c with
      | .image p => some p
      | _ => none
  else none

/-- Counterexample for C8: with a calendar event `D-Natação` and a
youtube-video reward whose pre-fetch succeeds, `reset_routine` leaves duarte
with six activities (the five defaults plus the synced swimming activity)
and a non-`None` `reward_video_id`, contradicting the claim that the list
becomes exactly the five defaults and `reward_video_id` is set to `None`. -/
theorem reset_routine_counterexample :
    ¬ ((reset_routine initialData
          { reward_type := "youtube_video", youtube := fun _ => some "vid1",
            calendarEvents := some [{ summary := "D-Natação" }] }
          none "T").1.duarte.activities = get_default_activities ∧
        (reset_routine initialData
          { reward_type := "youtube_video", youtube := fun _ => some "vid1",
            calendarEvents := some [{ summary := "D-Natação" }] }
          none "T").1.duarte.reward_video_id = none) := by decide

/-- The change `_generate_daily_phrases` makes to one child's state. -/
def phraseUpdate (env : Env) (c : String) (cd : ChildData) : ChildData :=
  if env.dailyPhraseEnabled then
    match env.openai_entry with
    | none => cd
    | some _ =>
      match env.phrase c with
      | some p => { cd with daily_phrase := some p }
      | none => cd
  else cd

/-- The change the reward pre-generation of `_generate_daily_content` makes
to one child's state. -/
def preRewardUpdate (env : Env) (c : String) (cd : ChildData) : ChildData :=
  if env.reward_type = "ai_image" then
    if env.openai_enabled then
      match resolveEntry env with
      | none => cd
      | some _ =>
        match env.ai c with
        | .image p => { cd with reward_image := some p }
        | _ => cd
    else cd
  else if env.reward_type = "youtube_video" then
    match env.youtube c with
    | some v => { cd with reward_video_id := some v }
    | none => cd
  else cd

/-- The change `_sync_calendar` makes to one child's state. -/
def syncUpdate (evso : Option (List CalEvent)) (c now : String)
    (cd : ChildData) : ChildData :=
  match evso with
  | none => cd
  | some evs =>
    { cd with
      activities := appendCalendar cd.activities (parse_calendar_events c evs now)
      last_calendar_sync := some now }

lemma phraseUpdate_fields (env : Env) (c : String) (cd : ChildData) :
    (phraseUpdate env c cd).activities = cd.activities ∧
    (phraseUpdate env c cd).photo_path = cd.photo_path ∧
    (phraseUpdate env c cd).audio_recording = cd.audio_recording ∧
    (phraseUpdate env c cd).reward_image = cd.reward_image ∧
    (phraseUpdate env c cd).reward_video_id = cd.reward_video_id ∧
    (phraseUpdate env c cd).last_reset = cd.last_reset := by
  unfold phraseUpdate
  by_cases he : env.dailyPhraseEnabled
  · simp only [he, if_true]
    cases env.openai_entry
    · simp
    · cases env.phrase c <;> simp
  · simp [he]

lemma preRewardUpdate_fields (env : Env) (c : String) (cd : ChildData) :
    (preRewardUpdate env c cd).activities = cd.activities ∧
    (preRewardUpdate env c cd).photo_path = cd.photo_path ∧
    (preRewardUpdate env c cd).audio_recording = cd.audio_recording ∧
    (preRewardUpdate env c cd).last_reset = cd.last_reset ∧
    (preRewardUpdate env c cd).reward_image
      = (if env.reward_type = "ai_image" ∧ env.openai_enabled = true then
          match resolveEntry env with
          | none => cd.reward_image
          | some _ =>
            match env.ai c with
            | .image p => some p
            | _ => cd.reward_image
        else cd.reward_image) ∧
    (preRewardUpdate env c cd).reward_video_id
      = (if env.reward_type = "youtube_video" then
          match env.youtube c with
          | some v => some v
          | none => cd.reward_video_id
        else cd.reward_video_id) := by
  unfold preRewardUpdate
  by_cases h1 : env.reward_type = "ai_image"
  · have h2 : ¬ env.reward_type = "youtube_video" := by
      rw [h1]
      simp
    by_cases h3 : env.openai_enabled = true
    · cases hre : resolveEntry env
      · simp [h1, h2, h3, hre]
      · cases hai : env.ai c <;> simp [h1, h2, h3, hre, hai]
    · simp [h1, h2, h3]
  · by_cases h3 : env.reward_type = "youtube_video"
    · cases hyt : env.youtube c <;> simp [h1, h3, hyt]
    · simp [h1, h3]

lemma syncUpdate_fields (evso : Option (List CalEvent)) (c now : String)
    (cd : ChildData) :
    (syncUpdate evso c now cd).activities
      = (match evso with
        | none => cd.activities
        | some evs => appendCalendar cd.activities (parse_calendar_events c evs now)) ∧
    (syncUpdate evso c now cd).photo_path = cd.photo_path ∧
    (syncUpdate evso c now cd).audio_recording = cd.audio_recording ∧
    (syncUpdate evso c now cd).reward_image = cd.reward_image ∧
    (syncUpdate evso c now cd).reward_video_id = cd.reward_video_id ∧
    (syncUpdate evso c now cd).last_reset = cd.last_reset := by
  cases evso <;> simp [syncUpdate]

lemma appendCalendar_eq_append (acts news : List Activity)
    (hdisj : ∀ a ∈ news, ∀ b ∈ acts, ¬ a.id = b.id)
    (hnd : (news.map (fun a => a.id)).Nodup) :
    appendCalendar acts news = acts ++ news := by
  induction news generalizing acts with
  | nil => simp [appendCalendar]
  | cons a rest ih =>
    have hg : (acts.any (fun b => b.id == a.id)) = false := by
      rw [List.any_eq_false]
      intro b hb hba
      exact hdisj a (List.mem_cons_self _ _) b hb (beq_iff_eq.mp hba).symm
    simp only [List.map_cons, List.nodup_cons] at hnd
    unfold appendCalendar
    rw [List.foldl_cons]
    simp only [hg, Bool.false_eq_true, if_false]
    have hrec := ih (acts ++ [a]) ?_ hnd.2
    · unfold appendCalendar at hrec
      rw [hrec, List.append_assoc, List.singleton_append]
    · intro x hx b hb
      rcases List.mem_append.mp hb with hb2 | hb2
      · exact hdisj x (List.mem_cons_of_mem _ hx) b hb2
      · rw [List.mem_singleton.mp hb2]
        intro hxa
        exact hnd.1 (hxa ▸ List.mem_map_of_mem (fun y => y.id) hx)

lemma parse_id_in_calendarIds (c : String) (evs : List CalEvent) (now : String)
    (a : Activity) (ha : a ∈ parse_calendar_events c evs now) :
    a.id ∈ ["music", "swimming", "jiujitsu", "taekwondo", "physical_education"] := by
  obtain ⟨ms, hms, e, _, m, hfm, rfl⟩ := parse_calendar_events_mem c evs now a ha
  have hmem : m ∈ ms := by
    have h2 : ms.find? (fun m2 => fnmatch e.summary m2.pattern) = some m := hfm
    exact List.mem_of_find?_eq_some h2
  unfold lookupChildMappings at hms
  rcases hfind : CALENDAR_ACTIVITY_MAPPING.find? (fun p => p.1 == c) with _ | pr
  · rw [hfind] at hms
    simp at hms
  · rw [hfind] at hms
    simp at hms
    have hpr : pr ∈ CALENDAR_ACTIVITY_MAPPING := List.mem_of_find?_eq_some hfind
    rw [← hms] at hmem
    fin_cases hpr <;> fin_cases hmem <;> simp [mkCalActivity]

lemma appendCalendar_defaults (c : String) (evs : List CalEvent) (now : String) :
    appendCalendar get_default_activities (parse_calendar_events c evs now)
      = get_default_activities ++ parse_calendar_events c evs now := by
  apply appendCalendar_eq_append
  · intro a ha b hb
    have h1 := parse_id_in_calendarIds c evs now a ha
    simp only [List.mem_cons, List.not_mem_nil, or_false] at h1
    fin_cases hb <;> rcases h1 with h | h | h | h | h <;> rw [h] <;> decide
  · exact parse_calendar_events_ids_nodup c evs now

lemma generate_daily_phrases_duarte (d : Data) (env : Env) :
    (generate_daily_phrases d env).duarte = phraseUpdate env "duarte" d.duarte := by
  unfold generate_daily_phrases phraseUpdate
  by_cases he : env.dailyPhraseEnabled
  · cases ho : env.openai_entry
    · simp [he, ho]
    · cases hp : env.phrase "duarte" <;> cases hp2 : env.phrase "leonor" <;>
        simp [he, ho, hp, hp2, CHILDREN, Data.get, Data.set]
  · simp [he]

lemma generate_daily_phrases_leonor (d : Data) (env : Env) :
    (generate_daily_phrases d env).leonor = phraseUpdate env "leonor" d.leonor := by
  unfold generate_daily_phrases phraseUpdate
  by_cases he : env.dailyPhraseEnabled
  · cases ho : env.openai_entry
    · simp [he, ho]
    · cases hp : env.phrase "duarte" <;> cases hp2 : env.phrase "leonor" <;>
        simp [he, ho, hp, hp2, CHILDREN, Data.get, Data.set]
  · simp [he]

lemma generate_reward_ai_duarte_duarte (d : Data) (env : Env)
    (hrt : env.reward_type = "ai_image") (hen : env.openai_enabled = true) :
    (generate_reward d env "duarte" true).1.duarte
      = preRewardUpdate env "duarte" d.duarte := by
  unfold generate_reward preRewardUpdate
  cases hre : resolveEntry env
  · simp [hrt, hen, hre, Data.get, quoteBranch]
  · cases hai : env.ai "duarte" <;>
      simp [hrt, hen, hre, hai, Data.get, Data.set, quoteBranch]

lemma generate_reward_ai_duarte_leonor (d : Data) (env : Env)
    (hrt : env.reward_type = "ai_image") (hen : env.openai_enabled = true) :
    (generate_reward d env "duarte" true).1.leonor = d.leonor := by
  unfold generate_reward
  cases hre : resolveEntry env
  · simp [hrt, hen, hre, Data.get, quoteBranch]
  · cases hai : env.ai "duarte" <;>
      simp [hrt, hen, hre, hai, Data.get, Data.set, quoteBranch]

lemma generate_reward_ai_leonor_duarte (d : Data) (env : Env)
    (hrt : env.reward_type = "ai_image") (hen : env.openai_enabled = true) :
    (generate_reward d env "leonor" true).1.duarte = d.duarte := by
  unfold generate_reward
  cases hre : resolveEntry env
  · simp [hrt, hen, hre, Data.get, quoteBranch]
  · cases hai : env.ai "leonor" <;>
      simp [hrt, hen, hre, hai, Data.get, Data.set, quoteBranch]

lemma generate_reward_ai_leonor_leonor (d : Data) (env : Env)
    (hrt : env.reward_type = "ai_image") (hen : env.openai_enabled = true) :
    (generate_reward d env "leonor" true).1.leonor
      = preRewardUpdate env "leonor" d.leonor := by
  unfold generate_reward preRewardUpdate
  cases hre : resolveEntry env
  · simp [hrt, hen, hre, Data.get, quoteBranch]
  · cases hai : env.ai "leonor" <;>
      simp [hrt, hen, hre, hai, Data.get, Data.set, quoteBranch]

lemma generate_daily_content_duarte (d : Data) (env : Env) :
    (generate_daily_content d env).1.duarte
      = preRewardUpdate env "duarte" (phraseUpdate env "duarte" d.duarte) := by
  have hA := generate_daily_phrases_duarte d env
  unfold generate_daily_content
  by_cases h1 : env.reward_type = "ai_image"
  · by_cases h2 : env.openai_enabled = true
    · simp only [h1, h2, if_true, if_pos, CHILDREN, List.foldl_cons, List.foldl_nil]
      rw [generate_reward_ai_leonor_duarte _ _ h1 h2,
        generate_reward_ai_duarte_duarte _ _ h1 h2, hA]
    · have h3 : ¬ env.reward_type = "youtube_video" := by
        rw [h1]
        simp
      simp [h1, h2, h3, hA, preRewardUpdate]
  · by_cases h3 : env.reward_type = "youtube_video"
    · cases hy1 : env.youtube "duarte" <;> cases hy2 : env.youtube "leonor" <;>
        simp [h1, h3, hy1, hy2, CHILDREN, Data.get, Data.set, hA, preRewardUpdate]
    · simp [h1, h3, hA, preRewardUpdate]

lemma generate_daily_content_leonor (d : Data) (env : Env) :
    (generate_daily_content d env).1.leonor
      = preRewardUpdate env "leonor" (phraseUpdate env "leonor" d.leonor) := by
  have hA := generate_daily_phrases_leonor d env
  unfold generate_daily_content
  by_cases h1 : env.reward_type = "ai_image"
  · by_cases h2 : env.openai_enabled = true
    · simp only [h1, h2, if_true, if_pos, CHILDREN, List.foldl_cons, List.foldl_nil]
      rw [generate_reward_ai_leonor_leonor _ _ h1 h2,
        generate_reward_ai_duarte_leonor _ _ h1 h2, hA]
    · have h3 : ¬ env.reward_type = "youtube_video" := by
        rw [h1]
        simp
      simp [h1, h2, h3, hA, preRewardUpdate]
  · by_cases h3 : env.reward_type = "youtube_video"
    · cases hy1 : env.youtube "duarte" <;> cases hy2 : env.youtube "leonor" <;>
        simp [h1, h3, hy1, hy2, CHILDREN, Data.get, Data.set, hA, preRewardUpdate]
    · simp [h1, h3, hA, preRewardUpdate]

lemma sync_calendar_duarte (d : Data) (evso : Option (List CalEvent)) (now : String) :
    (sync_calendar d evso now).1.duarte = syncUpdate evso "duarte" now d.duarte := by
  cases evso
  · rfl
  · simp [sync_calendar, syncUpdate, CHILDREN, Data.get, Data.set]

lemma sync_calendar_leonor (d : Data) (evso : Option (List CalEvent)) (now : String) :
    (sync_calendar d evso now).1.leonor = syncUpdate evso "leonor" now d.leonor := by
  cases evso
  · rfl
  · simp [sync_calendar, syncUpdate, CHILDREN, Data.get, Data.set]

lemma children_to_reset_cases (child : Option String) :
    children_to_reset child = ["duarte"] ∨ children_to_reset child = ["leonor"] ∨
      children_to_reset child = CHILDREN := by
  cases child with
  | none => exact Or.inr (Or.inr rfl)
  | some s =>
    simp only [children_to_reset]
    by_cases h : s ≠ "" ∧ s ∈ CHILDREN
    · rw [if_pos h]
      rcases (by simpa [CHILDREN] using h.2 : s = "duarte" ∨ s = "leonor") with rfl | rfl
      · exact Or.inl rfl
      · exact Or.inr (Or.inl rfl)
    · rw [if_neg h]
      exact Or.inr (Or.inr rfl)

lemma reset_routine_duarte (d : Data) (env : Env) (child : Option String)
    (now : String) (hc : "duarte" ∈ children_to_reset child) :
    (reset_routine d env child now).1.duarte
      = preRewardUpdate env "duarte" (phraseUpdate env "duarte"
          (syncUpdate env.calendarEvents "duarte" now (reset_child d.duarte now))) := by
  simp only [reset_routine]
  rcases children_to_reset_cases child with hT | hT | hT <;> rw [hT] at hc ⊢
  · simp only [List.foldl_cons, List.foldl_nil]
    rw [generate_daily_content_duarte, sync_calendar_duarte]
    simp [Data.get, Data.set]
  · simp [CHILDREN] at hc
  · simp only [CHILDREN, List.foldl_cons, List.foldl_nil]
    rw [generate_daily_content_duarte, sync_calendar_duarte]
    simp [Data.get, Data.set]

lemma reset_routine_leonor (d : Data) (env : Env) (child : Option String)
    (now : String) (hc : "leonor" ∈ children_to_reset child) :
    (reset_routine d env child now).1.leonor
      = preRewardUpdate env "leonor" (phraseUpdate env "leonor"
          (syncUpdate env.calendarEvents "leonor" now (reset_child d.leonor now))) := by
  simp only [reset_routine]
  rcases children_to_reset_cases child with hT | hT | hT <;> rw [hT] at hc ⊢
  · simp [CHILDREN] at hc
  · simp only [List.foldl_cons, List.foldl_nil]
    rw [generate_daily_content_leonor, sync_calendar_leonor]
    simp [Data.get, Data.set]
  · simp only [CHILDREN, List.foldl_cons, List.foldl_nil]
    rw [generate_daily_content_leonor, sync_calendar_leonor]
    simp [Data.get, Data.set]

lemma reset_routine_duarte_nontarget (d : Data) (env : Env) (child : Option String)
    (now : String) (hc : "duarte" ∉ children_to_reset child) :
    (reset_routine d env child now).1.duarte
      = preRewardUpdate env "duarte" (phraseUpdate env "duarte"
          (syncUpdate env.calendarEvents "duarte" now d.duarte)) := by
  simp only [reset_routine]
  rcases children_to_reset_cases child with hT | hT | hT <;> rw [hT] at hc ⊢
  · simp [CHILDREN] at hc
  · simp only [List.foldl_cons, List.foldl_nil]
    rw [generate_daily_content_duarte, sync_calendar_duarte]
    simp [Data.get, Data.set]
  · simp [CHILDREN] at hc

lemma reset_routine_leonor_nontarget (d : Data) (env : Env) (child : Option String)
    (now : String) (hc : "leonor" ∉ children_to_reset child) :
    (reset_routine d env child now).1.leonor
      = preRewardUpdate env "leonor" (phraseUpdate env "leonor"
          (syncUpdate env.calendarEvents "leonor" now d.leonor)) := by
  simp only [reset_routine]
  rcases children_to_reset_cases child with hT | hT | hT <;> rw [hT] at hc ⊢
  · simp only [List.foldl_cons, List.foldl_nil]
    rw [generate_daily_content_leonor, sync_calendar_leonor]
    simp [Data.get, Data.set]
  · simp [CHILDREN] at hc
  · simp [CHILDREN] at hc

lemma resetChildResult_fields (env : Env) (c now : String) (cd0 : ChildData) :
    (preRewardUpdate env c (phraseUpdate env c
        (syncUpdate env.calendarEvents c now (reset_child cd0 now)))).activities
      = get_default_activities ++ calendarAdds env c now ∧
    (preRewardUpdate env c (phraseUpdate env c
        (syncUpdate env.calendarEvents c now (reset_child cd0 now)))).photo_path
      = none ∧
    (preRewardUpdate env c (phraseUpdate env c
        (syncUpdate env.calendarEvents c now (reset_child cd0 now)))).audio_recording
      = none ∧
    (preRewardUpdate env c (phraseUpdate env c
        (syncUpdate env.calendarEvents c now (reset_child cd0 now)))).reward_image
      = expectedRewardImage env c ∧
    (preRewardUpdate env c (phraseUpdate env c
        (syncUpdate env.calendarEvents c now (reset_child cd0 now)))).reward_video_id
      = expectedRewardVideo env c ∧
    (preRewardUpdate env c (phraseUpdate env c
        (syncUpdate env.calendarEvents c now (reset_child cd0 now)))).last_reset
      = some now := by
  obtain ⟨s1, s2, s3, s4, s5, s6⟩ :=
    syncUpdate_fields env.calendarEvents c now (reset_child cd0 now)
  obtain ⟨p1, p2, p3, p4, p5, p6⟩ :=
    phraseUpdate_fields env c (syncUpdate env.calendarEvents c now (reset_child cd0 now))
  obtain ⟨q1, q2, q3, q4, q5, q6⟩ :=
    preRewardUpdate_fields env c
      (phraseUpdate env c (syncUpdate env.calendarEvents c now (reset_child cd0 now)))
  refine ⟨?_, ?_, ?_, ?_, ?_, ?_⟩
  · rw [q1, p1, s1]
    cases henv : env.calendarEvents with
    | none => simp [reset_child, calendarAdds, henv]
    | some evs => simp [reset_child, calendarAdds, henv, appendCalendar_defaults]
  · rw [q2, p2, s2]
    simp [reset_child]
  · rw [q3, p3, s3]
    simp [reset_child]
  · rw [q5, p4, s4]
    unfold expectedRewardImage
    by_cases hb : env.reward_type = "ai_image" ∧ env.openai_enabled = true <;>
      cases hre : resolveEntry env <;> cases hai : env.ai c <;>
        simp [reset_child, hb, hre, hai]
  · rw [q6, p5, s5]
    unfold expectedRewardVideo
    by_cases hb : env.reward_type = "youtube_video" <;> cases hyt : env.youtube c <;>
      simp [reset_child, hb, hyt]
  · rw [q4, p6, s6]
    simp [reset_child]

/-- Claim C8 (amended): `reset_routine` with `None`, the empty string, or an
unknown name resets every child, and a known name only that child.  Each
reset child's activity list is set to the five fixed defaults (not completed)
with today's calendar-derived activities appended; `photo_path` and
`audio_recording` are set to `None`; `reward_image` is cleared and then set
only by a successful AI-image pre-generation; `reward_video_id` is cleared
and then set only by a successful YouTube pre-fetch; and `last_reset` is set
to the current time.  A child outside the reset selection keeps its
`last_reset`, `photo_path` and `audio_recording`. -/
theorem reset_routine_amended :
    (∀ d env child now c cd, c ∈ children_to_reset child →
        (reset_routine d env child now).1.get c = some cd →
        cd.activities = get_default_activities ++ calendarAdds env c now ∧
        cd.photo_path = none ∧
        cd.audio_recording = none ∧
        cd.reward_image = expectedRewardImage env c ∧
        cd.reward_video_id = expectedRewardVideo env c ∧
        cd.last_reset = some now) ∧
    (∀ child, (child = none ∨ ∃ s, child = some s ∧ (s = "" ∨ s ∉ CHILDREN)) →
        children_to_reset child = CHILDREN) ∧
    (∀ s, s ∈ CHILDREN → children_to_reset (some s) = [s]) ∧
    (∀ d env child now c cd cd2, c ∈ CHILDREN → c ∉ children_to_reset child →
        d.get c = some cd →
        (reset_routine d env child now).1.get c = some cd2 →
        cd2.last_reset = cd.last_reset ∧
        cd2.photo_path = cd.photo_path ∧
        cd2.audio_recording = cd.audio_recording) := by
  refine ⟨?_, ?_, ?_, ?_⟩
  · intro d env child now c cd hc hcd
    have hcc : c = "duarte" ∨ c = "leonor" := by
      rcases children_to_reset_cases child with hT | hT | hT <;> rw [hT] at hc
      · exact Or.inl (by simpa using hc)
      · exact Or.inr (by simpa using hc)
      · simpa [CHILDREN] using hc
    rcases hcc with rfl | rfl
    · have hcd2 : cd = (reset_routine d env child now).1.duarte := by
        simpa [Data.get] using hcd.symm
      subst hcd2
      rw [reset_routine_duarte d env child now hc]
      exact resetChildResult_fields env "duarte" now d.duarte
    · have hcd2 : cd = (reset_routine d env child now).1.leonor := by
        simpa [Data.get] using hcd.symm
      subst hcd2
      rw [reset_routine_leonor d env child now hc]
      exact resetChildResult_fields env "leonor" now d.leonor
  · intro child h
    rcases h with rfl | ⟨s, rfl, h2⟩
    · rfl
    · simp only [children_to_reset]
      rcases h2 with rfl | h3
      · rw [if_neg (fun hcontra => hcontra.1 rfl)]
      · rw [if_neg (fun hcontra => h3 hcontra.2)]
  · intro s hs
    rcases (by simpa [CHILDREN] using hs : s = "duarte" ∨ s = "leonor") with rfl | rfl <;>
      decide
  · intro d env child now c cd cd2 hmem hc hcd hcd2
    have hcc : c = "duarte" ∨ c = "leonor" := by simpa [CHILDREN] using hmem
    rcases hcc with rfl | rfl
    · have hget : cd = d.duarte := by simpa [Data.get] using hcd.symm
      have hget2 : cd2 = (reset_routine d env child now).1.duarte := by
        simpa [Data.get] using hcd2.symm
      subst hget
      subst hget2
      rw [reset_routine_duarte_nontarget d env child now hc]
      obtain ⟨s1, s2, s3, s4, s5, s6⟩ :=
        syncUpdate_fields env.calendarEvents "duarte" now d.duarte
      obtain ⟨p1, p2, p3, p4, p5, p6⟩ :=
        phraseUpdate_fields env "duarte"
          (syncUpdate env.calendarEvents "duarte" now d.duarte)
      obtain ⟨q1, q2, q3, q4, q5, q6⟩ :=
        preRewardUpdate_fields env "duarte"
          (phraseUpdate env "duarte" (syncUpdate env.calendarEvents "duarte" now d.duarte))
      exact ⟨by rw [q4, p6, s6], by rw [q2, p2, s2], by rw [q3, p3, s3]⟩
    · have hget : cd = d.leonor := by simpa [Data.get] using hcd.symm
      have hget2 : cd2 = (reset_routine d env child now).1.leonor := by
        simpa [Data.get] using hcd2.symm
      subst hget
      subst hget2
      rw [reset_routine_leonor_nontarget d env child now hc]
      obtain ⟨s1, s2, s3, s4, s5, s6⟩ :=
        syncUpdate_fields env.calendarEvents "leonor" now d.leonor
      obtain ⟨p1, p2, p3, p4, p5, p6⟩ :=
        phraseUpdate_fields env "leonor"
          (syncUpdate env.calendarEvents "leonor" now d.leonor)
      obtain ⟨q1, q2, q3, q4, q5, q6⟩ :=
        preRewardUpdate_fields env "leonor"
          (phraseUpdate env "leonor" (syncUpdate env.calendarEvents "leonor" now d.leonor))
      exact ⟨by rw [q4, p6, s6], by rw [q2, p2, s2], by rw [q3, p3, s3]⟩

/-- Witness for C8 (amended): the reset of all children under the
counterexample environment, read off for duarte, plus the single-child
target selection. -/
theorem reset_routine_amended_witness :
    ((reset_routine initialData
        { reward_type := "youtube_video", youtube := fun _ => some "vid1",
          calendarEvents := some [{ summary := "D-Natação" }] }
        none "T").1.duarte.activities
      = get_default_activities ++ calendarAdds
          { reward_type := "youtube_video", youtube := fun _ => some "vid1",
            calendarEvents := some [{ summary := "D-Natação" }] } "duarte" "T") ∧
    ((reset_routine initialData
        { reward_type := "youtube_video", youtube := fun _ => some "vid1",
          calendarEvents := some [{ summary := "D-Natação" }] }
        none "T").1.duarte.last_reset = some "T") ∧
    children_to_reset (some "duarte") = ["duarte"] :=
  ⟨(reset_routine_amended.1 initialData
      { reward_type := "youtube_video", youtube := fun _ => some "vid1",
        calendarEvents := some [{ summary := "D-Natação" }] }
      none "T" "duarte" _ (by decide) rfl).1,
   (reset_routine_amended.1 initialData
      { reward_type := "youtube_video", youtube := fun _ => some "vid1",
        calendarEvents := some [{ summary := "D-Natação" }] }
      none "T" "duarte" _ (by decide) rfl).2.2.2.2.2,
   reset_routine_amended.2.2.1 "duarte" (by decide)⟩

end MorningRoutine
